import Mathlib

/-!
Shallow embedding of `src/app.py` (Professional AI Agent with Tool Use).

The repository's core is the agentic tool-calling loop in class `Me`
(`Me.chat`, `Me.handle_tool_call`), the two module-level tool functions
`record_user_details` and `record_unknown_question`, the best-effort
notification sender `push`, and the tool-schema list `tools`.

External collaborators are modelled as parameters:
* the OpenAI client (`self.openai.chat.completions.create`) becomes a
  `gateway` function from the call index and the message list to either a
  response or a transport-level failure (an uncaught Python exception);
* the Pushover HTTP endpoint used by `push` becomes a `channel` function
  from the message text to success or failure (an exception inside
  `requests.post` / `raise_for_status`);
* the system prompt (built in `Me.__init__` / `Me.system_prompt` from
  files on disk) becomes an opaque string parameter.

Python exceptions are modelled with `Except PyError`; real-world side
effects (notification attempts) are collected in a `List NotifyEvent`
so that they remain observable even though `push` swallows failures.
-/

namespace AgentApp

/-- Python values that actually flow through this program as tool results:
`None` (returned by `push`), strings, and flat string-valued dicts such as
`\x7b"recorded": "ok"\x7d` and `\x7b"error": "Tool x not found"\x7d`. -/
inductive PyVal where
  | pynone
  | str (s : String)
  | dict (fields : List (String × String))
deriving DecidableEq, Repr

/-- Python exceptions that the embedded code can raise. -/
inductive PyError where
  | jsonDecodeError (payload : String)
  | typeError (msg : String)
  | gatewayError (msg : String)
  | externalCall (globalName : String)
  | nameError
deriving DecidableEq, Repr

/-- Observable notification side effects performed by `push`. -/
inductive NotifyEvent where
  | sent (text : String)
  | failed (text : String) (err : String)
deriving DecidableEq, Repr

/-- The `function` part of an OpenAI tool call: a tool name and the raw
JSON-serialized argument payload. -/
structure ToolFunction where
  name : String
  arguments : String
deriving DecidableEq, Repr

/-- An OpenAI tool-call request: an opaque id plus the function part. -/
structure ToolCall where
  id : String
  function : ToolFunction
deriving DecidableEq, Repr

/-- Conversation messages, mirroring the dict shapes built in `Me.chat`
and `Me.handle_tool_call`: system / user / assistant (possibly carrying
tool calls, with possibly-`None` content) / tool-result messages. -/
inductive Msg where
  | system (content : String)
  | user (content : String)
  | assistant (content : Option String) (tool_calls : List ToolCall)
  | tool (content : String) (tool_call_id : String)
deriving DecidableEq, Repr

/-- The `"role"` field of a message dict. -/
def Msg.role : Msg → String
  | .system _ => "system"
  | .user _ => "user"
  | .assistant _ _ => "assistant"
  | .tool _ _ => "tool"

/-- The `"tool_call_id"` field of a message dict (present only on
tool-result messages). -/
def Msg.toolCallIdField : Msg → Option String
  | .tool _ i => some i
  | _ => none

/-- One gateway response, the parts of `response.choices[0]` the code
reads: `finish_reason` and `message` (content plus tool calls). -/
structure Response where
  finish_reason : String
  content : Option String
  tool_calls : List ToolCall
deriving DecidableEq, Repr

/-- Outcome of one `Me.chat` turn: the returned value (or the propagated
exception), how many gateway calls were issued, and the notification side
effects that happened along the way. -/
structure TurnOutcome where
  result : Except PyError (Option String)
  gateway_calls : Nat
  alerts : List NotifyEvent
deriving Repr

/- ===== json.loads / json.dumps (Python stdlib, modelled as a subset) =====

The argument payloads this program ever passes to `json.loads` are flat
JSON objects with string keys and string values (that is the shape of both
tool schemas). The parser below implements exactly that subset of JSON:
an object `\x7b "k": "v", ... \x7d` with optional whitespace, string escapes
`\"` and `\\`, later duplicate keys overwriting earlier ones (Python dict
semantics). Inputs outside the subset are rejected; no claim is evaluated
at an input where this subset model and full JSON differ. -/

/-- Left brace character, written by code point to keep string literals
free of literal braces. -/
def lbrace : Char := Char.ofNat 123

/-- Right brace character. -/
def rbrace : Char := Char.ofNat 125

/-- Drop leading JSON whitespace. -/
def skip_ws : List Char → List Char
  | [] => []
  | c :: cs =>
    if c = ' ' ∨ c = '\t' ∨ c = '\n' ∨ c = '\r' then skip_ws cs else c :: cs

/-- Read the body of a JSON string literal after its opening quote, up to
the closing quote; supports the escapes `\"` and `\\`. Returns the decoded
string and the remaining input. -/
def parse_string_body : List Char → Option (String × List Char)
  | [] => none
  | c :: cs =>
    if c = '"' then some ("", cs)
    else if c = '\\' then
      match cs with
      | [] => none
      | d :: ds =>
        if d = '"' ∨ d = '\\' then
          match parse_string_body ds with
          | some (s, rest) => some (String.singleton d ++ s, rest)
          | none => none
        else none
    else
      match parse_string_body cs with
      | some (s, rest) => some (String.singleton c ++ s, rest)
      | none => none

/-- Insert a key/value pair with Python-dict semantics: an existing key is
overwritten in place, a new key is appended, insertion order preserved. -/
def dict_insert (kvs : List (String × String)) (k v : String) :
    List (String × String) :=
  match kvs with
  | [] => [(k, v)]
  | (k0, v0) :: rest =>
    if k0 = k then (k0, v) :: rest else (k0, v0) :: dict_insert rest k v

/-- Parse the members of a JSON object after its opening brace (first
member onward), accumulating pairs; succeeds only if the object closes and
nothing but whitespace follows. Fuel bounds the recursion. -/
def parse_members (fuel : Nat) (l : List Char)
    (acc : List (String × String)) : Option (List (String × String)) :=
  match fuel with
  | 0 => none
  | fuel' + 1 =>
    match skip_ws l with
    | [] => none
    | c :: cs =>
      if c = '"' then
        match parse_string_body cs with
        | none => none
        | some (key, rest1) =>
          match skip_ws rest1 with
          | [] => none
          | c2 :: cs2 =>
            if c2 = ':' then
              match skip_ws cs2 with
              | [] => none
              | c3 :: cs3 =>
                if c3 = '"' then
                  match parse_string_body cs3 with
                  | none => none
                  | some (value, rest2) =>
                    match skip_ws rest2 with
                    | [] => none
                    | c4 :: cs4 =>
                      if c4 = ',' then
                        parse_members fuel' cs4 (dict_insert acc key value)
                      else if c4 = rbrace then
                        if (skip_ws cs4).isEmpty then
                          some (dict_insert acc key value)
                        else none
                      else none
                else none
            else none
      else none

/-- Model of `json.loads` on argument payloads (subset: flat string-valued
JSON objects; see the section comment). `none` stands for `json.loads`
raising `json.JSONDecodeError`. -/
def json_loads (s : String) : Option (List (String × String)) :=
  match skip_ws s.toList with
  | [] => none
  | c :: cs =>
    if c = lbrace then
      match skip_ws cs with
      | [] => none
      | d :: ds =>
        if d = rbrace then
          if (skip_ws ds).isEmpty then some [] else none
        else parse_members (s.length + 1) (d :: ds) []
    else none

/-- Escape a string for JSON output (the characters this program can need:
quote and backslash). -/
def escape_json_string (s : String) : String :=
  String.join (s.toList.map fun c =>
    if c = '"' then "\\\""
    else if c = '\\' then "\\\\"
    else String.singleton c)

/-- Serialize the fields of a flat dict with Python's default separators
(comma-space, colon-space). -/
def json_dumps_fields : List (String × String) → String
  | [] => ""
  | [(k, v)] => "\"" ++ escape_json_string k ++ "\": \"" ++ escape_json_string v ++ "\""
  | (k, v) :: rest =>
    "\"" ++ escape_json_string k ++ "\": \"" ++ escape_json_string v ++ "\", "
      ++ json_dumps_fields rest

/-- Model of `json.dumps` on the values this program serializes. -/
def json_dumps : PyVal → String
  | .pynone => "null"
  | .str s => "\"" ++ escape_json_string s ++ "\""
  | .dict fields =>
    String.singleton lbrace ++ json_dumps_fields fields ++ String.singleton rbrace

/- ===== Tool implementations (module-level functions of app.py) ===== -/

/-- Model of `def push(text)`: tries to POST the text to the notification
channel (`requests.post` + `raise_for_status`, modelled as `channel`);
`except Exception` swallows any failure. Returns Python `None` either way;
the attempt is recorded as an observable event. -/
def push (channel : String → Except String Unit) (text : String) :
    PyVal × List NotifyEvent :=
  match channel text with
  | .ok _ => (PyVal.pynone, [NotifyEvent.sent text])
  | .error e => (PyVal.pynone, [NotifyEvent.failed text e])

/-- Model of `def record_user_details(email, name=..., notes=...)` with all
parameters supplied (default filling is done by the keyword binder below,
mirroring Python call semantics). -/
def record_user_details (channel : String → Except String Unit)
    (email name notes : String) : PyVal × List NotifyEvent :=
  let p := push channel
    ("Recording " ++ name ++ " with email " ++ email ++ " and notes " ++ notes)
  (PyVal.dict [("recorded", "ok")], p.2)

/-- Model of `def record_unknown_question(question)`. -/
def record_unknown_question (channel : String → Except String Unit)
    (question : String) : PyVal × List NotifyEvent :=
  let p := push channel ("Recording question: " ++ question)
  (PyVal.dict [("recorded", "ok")], p.2)

/- ===== Keyword-argument binding (Python `f(**arguments)` semantics) =====

Calling `f(**kwargs)` raises `TypeError` before the body runs when a
keyword does not name a parameter or when a required parameter is missing;
otherwise each parameter takes its keyword value or its default. -/

/-- True when some keyword is not among the function's parameter names. -/
def has_unexpected_kw (kwargs : List (String × String))
    (params : List String) : Bool :=
  kwargs.any fun kv => ¬ params.contains kv.1

/-- Python call `push(**kwargs)` (one required parameter `text`). -/
def call_push (channel : String → Except String Unit)
    (kwargs : List (String × String)) :
    Except PyError PyVal × List NotifyEvent :=
  if has_unexpected_kw kwargs ["text"] then
    (.error (.typeError "push() got an unexpected keyword argument"), [])
  else
    match kwargs.lookup "text" with
    | none => (.error (.typeError "push() missing required argument: text"), [])
    | some text =>
      let r := push channel text
      (.ok r.1, r.2)

/-- Python call `record_user_details(**kwargs)` (required `email`;
`name` and `notes` default as in the source). -/
def call_record_user_details (channel : String → Except String Unit)
    (kwargs : List (String × String)) :
    Except PyError PyVal × List NotifyEvent :=
  if has_unexpected_kw kwargs ["email", "name", "notes"] then
    (.error (.typeError "record_user_details() got an unexpected keyword argument"), [])
  else
    match kwargs.lookup "email" with
    | none =>
      (.error (.typeError "record_user_details() missing required argument: email"), [])
    | some email =>
      let name := (kwargs.lookup "name").getD "Name not provided"
      let notes := (kwargs.lookup "notes").getD "not provided"
      let r := record_user_details channel email name notes
      (.ok r.1, r.2)

/-- Python call `record_unknown_question(**kwargs)` (required `question`). -/
def call_record_unknown_question (channel : String → Except String Unit)
    (kwargs : List (String × String)) :
    Except PyError PyVal × List NotifyEvent :=
  if has_unexpected_kw kwargs ["question"] then
    (.error (.typeError "record_unknown_question() got an unexpected keyword argument"), [])
  else
    match kwargs.lookup "question" with
    | none =>
      (.error (.typeError "record_unknown_question() missing required argument: question"), [])
    | some question =>
      let r := record_unknown_question channel question
      (.ok r.1, r.2)

/- ===== The module's global namespace (`globals()` in app.py) ===== -/

/-- What a name can resolve to in app.py's module globals: one of the three
module-level functions, a non-callable module-level value (the schema
dicts, the `tools` list, imported modules, dunder globals, and the objects
bound in the `__main__` block), or a callable imported from an external
library (whose behavior is outside this repository). -/
inductive GlobalVal where
  | fnPush
  | fnRecordUserDetails
  | fnRecordUnknownQuestion
  | dataValue (globalName : String)
  | importedCallable (globalName : String)
deriving DecidableEq, Repr

/-- True for interpreter-provided dunder globals such as `__name__`,
`__doc__`, `__builtins__` (present in every module namespace). -/
def dunder_name (n : String) : Bool :=
  n.toList.take 2 = ['_', '_'] ∧ n.toList.reverse.take 2 = ['_', '_']

/-- Model of `globals().get(tool_name)` over app.py's module namespace. -/
def globals_get (n : String) : Option GlobalVal :=
  if n = "push" then some .fnPush
  else if n = "record_user_details" then some .fnRecordUserDetails
  else if n = "record_unknown_question" then some .fnRecordUnknownQuestion
  else if n = "record_user_details_json" ∨ n = "record_unknown_question_json"
      ∨ n = "tools" ∨ n = "json" ∨ n = "os" ∨ n = "requests" ∨ n = "gr"
      ∨ n = "me" ∨ n = "interface" then some (.dataValue n)
  else if n = "load_dotenv" ∨ n = "OpenAI" ∨ n = "PdfReader" ∨ n = "Me" then
    some (.importedCallable n)
  else if dunder_name n then some (.dataValue n)
  else none

/-- Invoke a resolved global as `tool(**arguments)`. Calling a non-callable
raises `TypeError`; invoking a callable imported from an external library
runs code outside this repository, represented abstractly as an
`externalCall` exception (no claim depends on that branch). -/
def call_global (channel : String → Except String Unit) (g : GlobalVal)
    (kwargs : List (String × String)) :
    Except PyError PyVal × List NotifyEvent :=
  match g with
  | .fnPush => call_push channel kwargs
  | .fnRecordUserDetails => call_record_user_details channel kwargs
  | .fnRecordUnknownQuestion => call_record_unknown_question channel kwargs
  | .dataValue d => (.error (.typeError (d ++ " object is not callable")), [])
  | .importedCallable n => (.error (.externalCall n), [])

/- ===== Me.handle_tool_call ===== -/

/-- One iteration of the loop body of `Me.handle_tool_call`:
`arguments = json.loads(tool_call.function.arguments)` (raising on
malformed payloads — note this runs BEFORE the name is resolved), then
`tool = globals().get(tool_name)` and
`result = tool(**arguments) if tool else dict-with-error`. -/
def run_tool_call (channel : String → Except String Unit) (tc : ToolCall) :
    Except PyError PyVal × List NotifyEvent :=
  match json_loads tc.function.arguments with
  | none => (.error (.jsonDecodeError tc.function.arguments), [])
  | some arguments =>
    match globals_get tc.function.name with
    | some g => call_global channel g arguments
    | none =>
      (.ok (PyVal.dict [("error", "Tool " ++ tc.function.name ++ " not found")]), [])

/-- Model of `Me.handle_tool_call`: iterate over the tool calls in order,
appending one `role:"tool"` message per call with the serialized result
and the call's id. An exception anywhere propagates out, discarding the
local `results` list (but side effects already performed remain). -/
def handle_tool_call (channel : String → Except String Unit) :
    List ToolCall → Except PyError (List Msg) × List NotifyEvent
  | [] => (.ok [], [])
  | tc :: rest =>
    match run_tool_call channel tc with
    | (.error e, ev) => (.error e, ev)
    | (.ok result, ev) =>
      match handle_tool_call channel rest with
      | (.error e, ev2) => (.error e, ev ++ ev2)
      | (.ok results, ev2) =>
        (.ok (Msg.tool (json_dumps result) tc.id :: results), ev ++ ev2)

/- ===== Me.chat ===== -/

/-- The iteration cap of `Me.chat` (`max_iterations = 10`). -/
def max_iterations : Nat := 10

/-- Model of the `while not done and iteration < max_iterations` loop of
`Me.chat`. `fuel` is `max_iterations - iteration` (each step is one loop
iteration, i.e. one gateway call); `calls` counts gateway calls issued so
far; `last` is the `response` variable (the latest gateway response, unset
before the first iteration); `events` collects notification side effects.
When fuel runs out the code falls through to
`return response.choices[0].message.content`; a gateway call that raises,
or an exception inside `handle_tool_call`, propagates out of `chat`. -/
def chat_loop (gateway : Nat → List Msg → Except String Response)
    (channel : String → Except String Unit)
    (messages : List Msg) (calls : Nat) (fuel : Nat)
    (last : Option Response) (events : List NotifyEvent) : TurnOutcome :=
  match fuel with
  | 0 =>
    match last with
    | some r => ⟨.ok r.content, calls, events⟩
    | none => ⟨.error .nameError, calls, events⟩
  | fuel' + 1 =>
    match gateway calls messages with
    | .error e => ⟨.error (.gatewayError e), calls + 1, events⟩
    | .ok resp =>
      if resp.finish_reason = "tool_calls" then
        match handle_tool_call channel resp.tool_calls with
        | (.error e, ev) => ⟨.error e, calls + 1, events ++ ev⟩
        | (.ok results, ev) =>
          chat_loop gateway channel
            (messages ++ [Msg.assistant resp.content resp.tool_calls] ++ results)
            (calls + 1) fuel' (some resp) (events ++ ev)
      else ⟨.ok resp.content, calls + 1, events⟩

/-- Model of `Me.chat(message, history)`: build
`[system] + history + [user message]` and run the loop. `system_prompt`
stands for the string built by `Me.system_prompt()` (from files on disk,
external to the loop); `gateway` stands for the OpenAI client. -/
def chat (gateway : Nat → List Msg → Except String Response)
    (channel : String → Except String Unit)
    (system_prompt : String) (message : String) (history : List Msg) :
    TurnOutcome :=
  chat_loop gateway channel
    ([Msg.system system_prompt] ++ history ++ [Msg.user message])
    0 max_iterations none []

/- ===== Tool schemas (the module-level dicts and the `tools` list) ===== -/

/-- One entry of a schema's `"properties"` object: a parameter name with
its JSON-schema `"type"` and `"description"`. -/
structure ParamSchema where
  name : String
  type : String
  description : String
deriving DecidableEq, Repr

/-- The `"parameters"` object of a tool schema. -/
structure ParamsObject where
  type : String
  properties : List ParamSchema
  required : List String
  additionalProperties : Bool
deriving DecidableEq, Repr

/-- A tool schema dict (`"name"`, `"description"`, `"parameters"`). -/
structure FunctionSchema where
  name : String
  description : String
  parameters : ParamsObject
deriving DecidableEq, Repr

/-- One entry of the `tools` list (`{"type": "function", "function": ...}`). -/
structure ToolEntry where
  type : String
  function : FunctionSchema
deriving DecidableEq, Repr

/-- The module-level dict `record_user_details_json`. -/
def record_user_details_json : FunctionSchema :=
  { name := "record_user_details"
    description := "Use this tool to record that a user is interested in being in touch and provided an email address"
    parameters :=
      { type := "object"
        properties :=
          [ { name := "email", type := "string"
              description := "The email address of this user" },
            { name := "name", type := "string"
              description := "The user's name, if they provided it" },
            { name := "notes", type := "string"
              description := "Any additional information about the conversation that's worth recording to give context" } ]
        required := ["email"]
        additionalProperties := false } }

/-- The module-level dict `record_unknown_question_json`. -/
def record_unknown_question_json : FunctionSchema :=
  { name := "record_unknown_question"
    description := "Always use this tool to record any question that couldn't be answered as you didn't know the answer"
    parameters :=
      { type := "object"
        properties :=
          [ { name := "question", type := "string"
              description := "The question that couldn't be answered" } ]
        required := ["question"]
        additionalProperties := false } }

/-- The module-level `tools` list advertised to the gateway on every call. -/
def tools : List ToolEntry :=
  [ { type := "function", function := record_user_details_json },
    { type := "function", function := record_unknown_question_json } ]

/- ===== Concrete stubs used to instantiate theorems ===== -/

/-- A notification channel on which every send succeeds. -/
def channel_ok : String → Except String Unit := fun _ => .ok ()

/-- An unreachable notification channel: every send fails. -/
def channel_down : String → Except String Unit :=
  fun _ => .error "connection refused"

/-- A stub gateway that answers every call with `finish_reason: "stop"`
and content `"Hello"`. -/
def gateway_hello : Nat → List Msg → Except String Response :=
  fun _ _ => .ok { finish_reason := "stop", content := some "Hello", tool_calls := [] }

/-- A concrete well-formed tool call used by witnesses: ask
`record_unknown_question` to record the question `X`. -/
def tc_question : ToolCall :=
  { id := "call_q", function :=
    { name := "record_unknown_question"
      arguments := "\x7b\"question\": \"X\"\x7d" } }

/-- An adversarial gateway response that always requests one more tool
call and never signals "stop". -/
def resp_adversarial : Response :=
  { finish_reason := "tool_calls", content := none, tool_calls := [tc_question] }

/-- A round of the loop driven by a response sequence is "good" when the
gateway call succeeds, requests tool calls, and the tool batch executes
without raising. -/
def good_round (channel : String → Except String Unit)
    (resps : Nat → Except String Response) (k : Nat) : Prop :=
  ∃ r, resps k = .ok r ∧ r.finish_reason = "tool_calls" ∧
    ∃ results ev, handle_tool_call channel r.tool_calls = (Except.ok results, ev)

/- ===== Helper lemmas about the loop ===== -/

/-- Unfolding lemma: a loop step whose gateway call fails. -/
theorem chat_loop_step_gwfail (gateway : Nat → List Msg → Except String Response)
    (channel : String → Except String Unit) (messages : List Msg)
    (calls fuel : Nat) (last : Option Response) (events : List NotifyEvent)
    (e : String) (hg : gateway calls messages = .error e) :
    chat_loop gateway channel messages calls (fuel + 1) last events =
      ⟨.error (.gatewayError e), calls + 1, events⟩ := by
  simp only [chat_loop, hg]

/-- Unfolding lemma: a loop step whose gateway response does not request
tool calls (the `done = True` branch). -/
theorem chat_loop_step_stop (gateway : Nat → List Msg → Except String Response)
    (channel : String → Except String Unit) (messages : List Msg)
    (calls fuel : Nat) (last : Option Response) (events : List NotifyEvent)
    (r : Response) (hg : gateway calls messages = .ok r)
    (hfr : r.finish_reason ≠ "tool_calls") :
    chat_loop gateway channel messages calls (fuel + 1) last events =
      ⟨.ok r.content, calls + 1, events⟩ := by
  simp only [chat_loop, hg, if_neg hfr]

/-- Unfolding lemma: a loop step that requests tool calls whose execution
succeeds appends the assistant message and the results, then loops. -/
theorem chat_loop_step_toolcalls (gateway : Nat → List Msg → Except String Response)
    (channel : String → Except String Unit) (messages : List Msg)
    (calls fuel : Nat) (last : Option Response) (events : List NotifyEvent)
    (r : Response) (results : List Msg) (ev : List NotifyEvent)
    (hg : gateway calls messages = .ok r)
    (hfr : r.finish_reason = "tool_calls")
    (hh : handle_tool_call channel r.tool_calls = (Except.ok results, ev)) :
    chat_loop gateway channel messages calls (fuel + 1) last events =
      chat_loop gateway channel
        (messages ++ [Msg.assistant r.content r.tool_calls] ++ results)
        (calls + 1) fuel (some r) (events ++ ev) := by
  simp only [chat_loop, hg, if_pos hfr, hh]

/-- Unfolding lemma: a loop step whose tool execution raises propagates
the exception. -/
theorem chat_loop_step_toolfail (gateway : Nat → List Msg → Except String Response)
    (channel : String → Except String Unit) (messages : List Msg)
    (calls fuel : Nat) (last : Option Response) (events : List NotifyEvent)
    (r : Response) (e : PyError) (ev : List NotifyEvent)
    (hg : gateway calls messages = .ok r)
    (hfr : r.finish_reason = "tool_calls")
    (hh : handle_tool_call channel r.tool_calls = (Except.error e, ev)) :
    chat_loop gateway channel messages calls (fuel + 1) last events =
      ⟨.error e, calls + 1, events ++ ev⟩ := by
  simp only [chat_loop, hg, if_pos hfr, hh]

/-- Unfolding lemma: exhausted fuel falls through to
`return response.choices[0].message.content`. -/
theorem chat_loop_zero (gateway : Nat → List Msg → Except String Response)
    (channel : String → Except String Unit) (messages : List Msg)
    (calls : Nat) (r : Response) (events : List NotifyEvent) :
    chat_loop gateway channel messages calls 0 (some r) events =
      ⟨.ok r.content, calls, events⟩ := by
  simp only [chat_loop]

/-- The loop issues at most `calls + fuel` gateway calls in total. -/
theorem chat_loop_calls_le (gateway : Nat → List Msg → Except String Response)
    (channel : String → Except String Unit) :
    ∀ (fuel : Nat) (messages : List Msg) (calls : Nat) (last : Option Response)
      (events : List NotifyEvent),
      (chat_loop gateway channel messages calls fuel last events).gateway_calls
        ≤ calls + fuel := by
  intro fuel
  induction fuel with
  | zero =>
    intro messages calls last events
    cases last <;> simp [chat_loop]
  | succ f ih =>
    intro messages calls last events
    cases hg : gateway calls messages with
    | error e =>
      rw [chat_loop_step_gwfail gateway channel messages calls f last events e hg]
      simp
    | ok resp =>
      by_cases hfr : resp.finish_reason = "tool_calls"
      · cases hh : handle_tool_call channel resp.tool_calls with
        | mk res ev =>
          cases res with
          | error e =>
            rw [chat_loop_step_toolfail gateway channel messages calls f last events
              resp e ev hg hfr hh]
            simp
          | ok results =>
            rw [chat_loop_step_toolcalls gateway channel messages calls f last events
              resp results ev hg hfr hh]
            have := ih (messages ++ [Msg.assistant resp.content resp.tool_calls] ++ results)
              (calls + 1) (some resp) (events ++ ev)
            omega
      · rw [chat_loop_step_stop gateway channel messages calls f last events resp hg hfr]
        simp

/-- C1: for every sequence of gateway responses — including an adversarial
gateway that requests tool calls on every round and never signals "stop" —
`Me.chat` performs at most `max_iterations` (10) gateway calls and then
returns to its caller (the model function is total, so an outcome is
always produced). -/
theorem chat_issues_at_most_max_iterations_gateway_calls
    (gateway : Nat → List Msg → Except String Response)
    (channel : String → Except String Unit)
    (system_prompt message : String) (history : List Msg) :
    (chat gateway channel system_prompt message history).gateway_calls
        ≤ max_iterations ∧ max_iterations = 10 := by
  refine ⟨?_, rfl⟩
  have h := chat_loop_calls_le gateway channel max_iterations
    ([Msg.system system_prompt] ++ history ++ [Msg.user message]) 0 none []
  simpa [chat] using h

/-- C6: calling `record_user_details` with only the required `email`
argument returns exactly the dict `recorded: ok` and does not raise, for
every notification channel — in particular an unreachable one on which
every send fails: the side-effect failure is swallowed by `push` and does
not affect the tool's nominal result (shown both for the direct keyword
call and through the executor with the JSON payload `email: a@b.com`). -/
theorem record_user_details_email_only_ok (channel : String → Except String Unit) :
    (call_record_user_details channel [("email", "a@b.com")]).1 =
      .ok (PyVal.dict [("recorded", "ok")]) ∧
    (handle_tool_call channel
      [⟨"call_1", ⟨"record_user_details", "\x7b\"email\": \"a@b.com\"\x7d"⟩⟩]).1 =
      .ok [Msg.tool "\x7b\"recorded\": \"ok\"\x7d" "call_1"] :=
  ⟨rfl, rfl⟩

/-- C7: against a stub gateway whose first response is
`finish_reason: "stop"` with content `"Hello"`, a chat turn with user
message `"hi"` and empty prior history returns exactly `"Hello"` and
issues exactly one gateway call. -/
theorem first_round_stop_returns_hello (system_prompt : String)
    (channel : String → Except String Unit) :
    chat gateway_hello channel system_prompt "hi" [] =
      ⟨.ok (some "Hello"), 1, []⟩ :=
  rfl

/-- C8: the advertised tool list contains exactly two function tools:
`record_user_details` with parameters `email`, `name`, `notes` (all
strings, only `email` required), and `record_unknown_question` with the
required string parameter `question`; both schemas set
`additionalProperties` to false. -/
theorem tools_schema_exact :
    tools.length = 2 ∧
    tools.map (fun t => t.type) = ["function", "function"] ∧
    tools.map (fun t => t.function.name) =
      ["record_user_details", "record_unknown_question"] ∧
    record_user_details_json.parameters.properties.map (fun p => (p.name, p.type)) =
      [("email", "string"), ("name", "string"), ("notes", "string")] ∧
    record_user_details_json.parameters.required = ["email"] ∧
    record_user_details_json.parameters.additionalProperties = false ∧
    record_unknown_question_json.parameters.properties.map (fun p => (p.name, p.type)) =
      [("question", "string")] ∧
    record_unknown_question_json.parameters.required = ["question"] ∧
    record_unknown_question_json.parameters.additionalProperties = false :=
  ⟨rfl, rfl, rfl, rfl, rfl, rfl, rfl, rfl, rfl⟩

/-- C10: `"push"` is not one of the two advertised tool names, yet a
tool-call request naming it is not answered with the ToolNotFound error
result: because the executor resolves names against the module's global
namespace, the module-level callable `push` is invoked with the
model-supplied argument (the notification `"hello"` is actually sent) and
its return value `None` is serialized as the tool result `"null"`. -/
theorem globals_dispatch_invokes_push :
    tools.map (fun t => t.function.name) =
      ["record_user_details", "record_unknown_question"] ∧
    "push" ∉ tools.map (fun t => t.function.name) ∧
    handle_tool_call channel_ok
      [⟨"call_7", ⟨"push", "\x7b\"text\": \"hello\"\x7d"⟩⟩] =
      (.ok [Msg.tool "null" "call_7"], [NotifyEvent.sent "hello"]) :=
  ⟨rfl, by decide, rfl⟩

/-- C2 (counterexample): a batch whose first request names the resolved
tool `record_user_details` with the malformed payload `"oops"` makes the
executor raise `json.JSONDecodeError` — no recoverable error result is
produced for that request, the sibling request is never executed, and no
result list is returned: the fault aborts the batch, contradicting the
claim as stated. -/
theorem malformed_payload_aborts_batch_cex :
    handle_tool_call channel_ok
      [⟨"c1", ⟨"record_user_details", "oops"⟩⟩, tc_question] =
      (.error (.jsonDecodeError "oops"), []) :=
  rfl

/-- C2 (amended): a request whose argument payload is not valid JSON makes
`json.loads` raise; the parse failure propagates as a fault that aborts
the whole batch (no tool-result messages are produced) and, when the batch
came from a gateway tool-call response, terminates the turn by propagating
out of `Me.chat`. -/
theorem malformed_payload_raises_and_terminates_turn
    (channel : String → Except String Unit) (tc : ToolCall) (rest : List ToolCall)
    (h : json_loads tc.function.arguments = none) :
    handle_tool_call channel (tc :: rest) =
      (.error (.jsonDecodeError tc.function.arguments), []) ∧
    ∀ (system_prompt message : String) (history : List Msg),
      (chat (fun _ _ => .ok ⟨"tool_calls", none, tc :: rest⟩) channel
          system_prompt message history).result =
        .error (.jsonDecodeError tc.function.arguments) := by
  have hrun : run_tool_call channel tc =
      (.error (.jsonDecodeError tc.function.arguments), []) := by
    simp only [run_tool_call, h]
  have hbatch : handle_tool_call channel (tc :: rest) =
      (.error (.jsonDecodeError tc.function.arguments), []) := by
    simp only [handle_tool_call, hrun]
  refine ⟨hbatch, ?_⟩
  intro system_prompt message history
  rw [chat, show max_iterations = 9 + 1 from rfl,
    chat_loop_step_toolfail _ channel _ 0 9 none []
      ⟨"tool_calls", none, tc :: rest⟩ (.jsonDecodeError tc.function.arguments) []
      rfl rfl hbatch]

/-- C2 (witness): the amended theorem applied to the concrete malformed
payload `"oops"` sent to the resolved tool `record_user_details`. -/
theorem malformed_payload_raises_witness :
    json_loads "oops" = none ∧
    handle_tool_call channel_ok [⟨"call_1", ⟨"record_user_details", "oops"⟩⟩] =
      (.error (.jsonDecodeError "oops"), []) :=
  ⟨rfl, (malformed_payload_raises_and_terminates_turn channel_ok
    ⟨"call_1", ⟨"record_user_details", "oops"⟩⟩ [] rfl).1⟩

/-- C4 (counterexample): a batch containing a request whose name resolves
to no implementation is NOT always answered with the ToolNotFound error
result: `json.loads` runs before name resolution, so when that request's
payload is malformed the executor raises and aborts the batch — the
sibling request is never executed. -/
theorem unresolved_tool_with_malformed_payload_cex :
    globals_get "no_such_tool" = none ∧
    handle_tool_call channel_ok
      [⟨"c1", ⟨"no_such_tool", "oops"⟩⟩, tc_question] =
      (.error (.jsonDecodeError "oops"), []) :=
  ⟨by decide, rfl⟩

/-- C4 (amended): provided a request's argument payload is valid JSON (the
payload is parsed before the name is resolved), a request whose tool name
resolves to no implementation in the module globals yields the structured
result dict `error: Tool <name> not found` without raising, and the
remaining requests in the batch are processed exactly as they would be on
their own. -/
theorem unresolved_tool_error_result_continues
    (channel : String → Except String Unit) (tc : ToolCall)
    (rest : List ToolCall) (kw : List (String × String))
    (h1 : globals_get tc.function.name = none)
    (h2 : json_loads tc.function.arguments = some kw) :
    handle_tool_call channel (tc :: rest) =
      ((handle_tool_call channel rest).1.map
        (fun results =>
          Msg.tool
            (json_dumps (PyVal.dict
              [("error", "Tool " ++ tc.function.name ++ " not found")]))
            tc.id :: results),
       (handle_tool_call channel rest).2) := by
  have hrun : run_tool_call channel tc =
      (.ok (PyVal.dict [("error", "Tool " ++ tc.function.name ++ " not found")]), []) := by
    simp only [run_tool_call, h2, h1]
  rcases hrest : handle_tool_call channel rest with ⟨res, ev⟩
  cases res with
  | error e => simp only [handle_tool_call, hrun, hrest, Except.map, List.nil_append]
  | ok results => simp only [handle_tool_call, hrun, hrest, Except.map, List.nil_append]

/-- C4 (witness): the amended theorem applied to a concrete unresolved
tool name with the well-formed empty JSON object as payload. -/
theorem unresolved_tool_error_result_witness :
    globals_get "no_such_tool" = none ∧
    json_loads "\x7b\x7d" = some [] ∧
    handle_tool_call channel_ok [⟨"c9", ⟨"no_such_tool", "\x7b\x7d"⟩⟩] =
      (.ok [Msg.tool "\x7b\"error\": \"Tool no_such_tool not found\"\x7d" "c9"], []) := by
  refine ⟨by decide, rfl, ?_⟩
  rw [unresolved_tool_error_result_continues channel_ok
    ⟨"c9", ⟨"no_such_tool", "\x7b\x7d"⟩⟩ [] [] (by decide) rfl]
  rfl

/-- C5: whenever the executor returns (so its results get appended to the
conversation by `Me.chat`), it returns exactly one tool-result message per
tool-call request, each carrying role "tool", with the `tool_call_id`s
matching the requests' identifiers one-to-one in the order the requests
were issued. -/
theorem tool_results_match_requests
    (channel : String → Except String Unit) (tool_calls : List ToolCall)
    (results : List Msg) (ev : List NotifyEvent)
    (h : handle_tool_call channel tool_calls = (Except.ok results, ev)) :
    results.length = tool_calls.length ∧
    results.map Msg.role = tool_calls.map (fun _ => "tool") ∧
    results.map Msg.toolCallIdField = tool_calls.map (fun tc => some tc.id) := by
  induction tool_calls generalizing results ev with
  | nil =>
    simp only [handle_tool_call, Prod.mk.injEq, Except.ok.injEq] at h
    rw [← h.1]
    exact ⟨rfl, rfl, rfl⟩
  | cons tc rest ih =>
    rcases hrun : run_tool_call channel tc with ⟨res, ev1⟩
    rcases hrest : handle_tool_call channel rest with ⟨res2, ev2⟩
    cases res with
    | error e =>
      simp [handle_tool_call, hrun] at h
    | ok result =>
      cases res2 with
      | error e2 =>
        simp [handle_tool_call, hrun, hrest] at h
      | ok results2 =>
        simp only [handle_tool_call, hrun, hrest, Prod.mk.injEq, Except.ok.injEq] at h
        obtain ⟨hres, _⟩ := h
        obtain ⟨l1, l2, l3⟩ := ih results2 ev2 hrest
        rw [← hres]
        refine ⟨?_, ?_, ?_⟩
        · simp [l1]
        · simp [Msg.role, l2]
        · simp [Msg.toolCallIdField, l3]

/-- C5 (witness): a concrete two-request round — one resolved tool call
and one unresolved name — yields exactly two role-"tool" results whose ids
match the requests in order. -/
theorem tool_results_match_requests_witness :
    handle_tool_call channel_ok
        [tc_question, ⟨"c5b", ⟨"missing_tool", "\x7b\x7d"⟩⟩] =
      (Except.ok
        [Msg.tool "\x7b\"recorded\": \"ok\"\x7d" "call_q",
         Msg.tool "\x7b\"error\": \"Tool missing_tool not found\"\x7d" "c5b"],
       [NotifyEvent.sent "Recording question: X"]) ∧
    ([Msg.tool "\x7b\"recorded\": \"ok\"\x7d" "call_q",
      Msg.tool "\x7b\"error\": \"Tool missing_tool not found\"\x7d" "c5b"] : List Msg).length =
      ([tc_question, ⟨"c5b", ⟨"missing_tool", "\x7b\x7d"⟩⟩] : List ToolCall).length ∧
    [Msg.tool "\x7b\"recorded\": \"ok\"\x7d" "call_q",
     Msg.tool "\x7b\"error\": \"Tool missing_tool not found\"\x7d" "c5b"].map Msg.role =
      [tc_question, ⟨"c5b", ⟨"missing_tool", "\x7b\x7d"⟩⟩].map (fun _ => "tool") ∧
    [Msg.tool "\x7b\"recorded\": \"ok\"\x7d" "call_q",
     Msg.tool "\x7b\"error\": \"Tool missing_tool not found\"\x7d" "c5b"].map Msg.toolCallIdField =
      [tc_question, ⟨"c5b", ⟨"missing_tool", "\x7b\x7d"⟩⟩].map (fun tc => some tc.id) := by
  have h := tool_results_match_requests channel_ok
    [tc_question, ⟨"c5b", ⟨"missing_tool", "\x7b\x7d"⟩⟩]
    [Msg.tool "\x7b\"recorded\": \"ok\"\x7d" "call_q",
     Msg.tool "\x7b\"error\": \"Tool missing_tool not found\"\x7d" "c5b"]
    [NotifyEvent.sent "Recording question: X"] rfl
  exact ⟨rfl, h.1, h.2.1, h.2.2⟩

/-- Running the loop for `f + 1` rounds that all request tool calls and
execute them successfully consumes all the fuel and, when it runs out,
returns the content of the last response received. -/
theorem chat_loop_all_tool_rounds
    (channel : String → Except String Unit)
    (resps : Nat → Except String Response) :
    ∀ (f calls : Nat) (messages : List Msg) (last : Option Response)
      (events : List NotifyEvent),
      (∀ k, calls ≤ k → k < calls + f + 1 → good_round channel resps k) →
      ∃ r, resps (calls + f) = .ok r ∧
        (chat_loop (fun n _ => resps n) channel messages calls (f + 1) last
            events).result = .ok r.content ∧
        (chat_loop (fun n _ => resps n) channel messages calls (f + 1) last
            events).gateway_calls = calls + f + 1 := by
  intro f
  induction f with
  | zero =>
    intro calls messages last events hgood
    obtain ⟨r, hr, hfr, results, ev, hh⟩ := hgood calls le_rfl (by omega)
    refine ⟨r, by simpa using hr, ?_⟩
    rw [chat_loop_step_toolcalls _ channel messages calls 0 last events
      r results ev hr hfr hh]
    rw [chat_loop_zero]
    exact ⟨rfl, rfl⟩
  | succ f ih =>
    intro calls messages last events hgood
    obtain ⟨r, hr, hfr, results, ev, hh⟩ := hgood calls le_rfl (by omega)
    rw [chat_loop_step_toolcalls _ channel messages calls (f + 1) last events
      r results ev hr hfr hh]
    obtain ⟨r2, hr2, h1, h2⟩ := ih (calls + 1)
      (messages ++ [Msg.assistant r.content r.tool_calls] ++ results)
      (some r) (events ++ ev)
      (fun k hk1 hk2 => hgood k (by omega) (by omega))
    have hidx : calls + 1 + f = calls + (f + 1) := by omega
    rw [hidx] at hr2
    exact ⟨r2, hr2, h1, by omega⟩

/-- After `j` successful tool-call rounds, a failing gateway call makes
the loop propagate the failure with no further calls. -/
theorem chat_loop_gateway_failure
    (channel : String → Except String Unit)
    (resps : Nat → Except String Response) (e : String) :
    ∀ (j f calls : Nat) (messages : List Msg) (last : Option Response)
      (events : List NotifyEvent),
      j ≤ f →
      (∀ k, calls ≤ k → k < calls + j → good_round channel resps k) →
      resps (calls + j) = .error e →
      (chat_loop (fun n _ => resps n) channel messages calls (f + 1) last
          events).result = .error (.gatewayError e) ∧
      (chat_loop (fun n _ => resps n) channel messages calls (f + 1) last
          events).gateway_calls = calls + j + 1 := by
  intro j
  induction j with
  | zero =>
    intro f calls messages last events _ _ hfail
    rw [chat_loop_step_gwfail _ channel messages calls f last events e
      (by simpa using hfail)]
    exact ⟨rfl, rfl⟩
  | succ j ih =>
    intro f calls messages last events hjf hgood hfail
    obtain ⟨f', rfl⟩ : ∃ f', f = f' + 1 := ⟨f - 1, by omega⟩
    obtain ⟨r, hr, hfr, results, ev, hh⟩ := hgood calls le_rfl (by omega)
    rw [chat_loop_step_toolcalls _ channel messages calls (f' + 1) last events
      r results ev hr hfr hh]
    have := ih f' (calls + 1)
      (messages ++ [Msg.assistant r.content r.tool_calls] ++ results)
      (some r) (events ++ ev) (by omega)
      (fun k hk1 hk2 => hgood k (by omega) (by omega))
      (by rw [show calls + 1 + j = calls + (j + 1) from by omega]; exact hfail)
    exact ⟨this.1, by have := this.2; omega⟩

/-- C3: in every execution where the round counter reaches the iteration
cap without the gateway ever signalling a final answer (every response
requests tool calls, and the requested tools execute without raising),
`Me.chat` still returns normally — never raises, never hangs — and the
value returned is the content of the most recent assistant message
received from the gateway (the response of the 10th and last call). -/
theorem cap_hit_returns_last_response_content
    (resps : Nat → Response) (channel : String → Except String Unit)
    (system_prompt message : String) (history : List Msg)
    (hfr : ∀ k, k < max_iterations → (resps k).finish_reason = "tool_calls")
    (hok : ∀ k, k < max_iterations → ∃ results ev,
      handle_tool_call channel (resps k).tool_calls = (Except.ok results, ev)) :
    (chat (fun n _ => .ok (resps n)) channel system_prompt message
        history).result = .ok (resps 9).content ∧
    (chat (fun n _ => .ok (resps n)) channel system_prompt message
        history).gateway_calls = max_iterations := by
  obtain ⟨r, hr, h1, h2⟩ := chat_loop_all_tool_rounds channel
    (fun n => .ok (resps n)) 9 0
    ([Msg.system system_prompt] ++ history ++ [Msg.user message]) none []
    (fun k hk1 hk2 => ⟨resps k, rfl, hfr k (by simpa [max_iterations] using hk2),
      hok k (by simpa [max_iterations] using hk2)⟩)
  have hr9 : r = resps 9 := by
    have := hr
    simp only [Except.ok.injEq] at this
    exact this.symm
  subst hr9
  exact ⟨h1, h2⟩

/-- C3 (witness): the theorem applied to the adversarial gateway that
requests `record_unknown_question` on every round: the loop hits the cap,
issues exactly 10 gateway calls, and returns the last response's content
(here `None`, since a pure tool-call message has no content). -/
theorem cap_hit_returns_last_response_content_witness :
    (chat (fun _ _ => .ok resp_adversarial) channel_ok "s" "hi" []).result =
      .ok none ∧
    (chat (fun _ _ => .ok resp_adversarial) channel_ok "s" "hi" []).gateway_calls =
      max_iterations :=
  cap_hit_returns_last_response_content (fun _ => resp_adversarial) channel_ok
    "s" "hi" [] (fun _ _ => rfl)
    (fun _ _ => ⟨[Msg.tool "\x7b\"recorded\": \"ok\"\x7d" "call_q"],
      [NotifyEvent.sent "Recording question: X"], rfl⟩)

/-- C9: when a gateway call itself fails (after any number of successful
tool-call rounds), the loop neither retries the call nor recovers: the
failure propagates out of `Me.chat` as a turn-level failure with no
partial answer, and the failing call is the last one issued. -/
theorem gateway_failure_propagates
    (resps : Nat → Except String Response)
    (channel : String → Except String Unit)
    (system_prompt message : String) (history : List Msg)
    (e : String) (n : Nat)
    (hn : n < max_iterations)
    (hgood : ∀ k, k < n → good_round channel resps k)
    (hfail : resps n = .error e) :
    (chat (fun k _ => resps k) channel system_prompt message
        history).result = .error (.gatewayError e) ∧
    (chat (fun k _ => resps k) channel system_prompt message
        history).gateway_calls = n + 1 := by
  have hn9 : n ≤ 9 := by simpa [max_iterations] using Nat.lt_succ_iff.mp hn
  have h := chat_loop_gateway_failure channel resps e n 9 0
    ([Msg.system system_prompt] ++ history ++ [Msg.user message]) none []
    hn9 (fun k hk1 hk2 => hgood k (by omega)) (by simpa using hfail)
  refine ⟨h.1, ?_⟩
  have h2 := h.2
  rw [show (0 : Nat) + n + 1 = n + 1 from by omega] at h2
  exact h2

/-- C9 (witness): a gateway whose first call requests a tool and whose
second call fails with "boom": the failure propagates after exactly two
gateway calls, with no partial answer. -/
theorem gateway_failure_propagates_witness :
    (chat (fun k _ => if k = 0 then .ok resp_adversarial else .error "boom")
        channel_ok "s" "hi" []).result = .error (.gatewayError "boom") ∧
    (chat (fun k _ => if k = 0 then .ok resp_adversarial else .error "boom")
        channel_ok "s" "hi" []).gateway_calls = 2 :=
  gateway_failure_propagates
    (fun k => if k = 0 then .ok resp_adversarial else .error "boom")
    channel_ok "s" "hi" [] "boom" 1 (by simp [max_iterations])
    (fun k hk => by
      have hk0 : k = 0 := by omega
      subst hk0
      exact ⟨resp_adversarial, rfl, rfl,
        [Msg.tool "\x7b\"recorded\": \"ok\"\x7d" "call_q"],
        [NotifyEvent.sent "Recording question: X"], rfl⟩)
    rfl

end AgentApp
